import Mathlib

/-!
Verification of the flight-dynamics state-derivative engine of
`fixed-wing-sim` (notebook `EOM Derivation/Equations of Motion.ipynb`).

The notebook derives, over the reals, the body-frame translational and
rotational state derivatives of a rigid 6-DOF aircraft:

* `acc_cm  = (1/m) F + C_bn g_n − ω × v`
* `ang_acc_cm = J⁻¹ (M_AT − ω × (J ω))`

with `C_bn = Rx(φ) Ry(θ) Rz(ψ)` the NED-to-body direction-cosine matrix and
`J` the inertia tensor with the xz product of inertia as its only
off-diagonal entry.  The definitions below transcribe those cells; vectors
are `Fin 3 → ℝ`, matrices are Mathlib's `Matrix (Fin 3) (Fin 3) ℝ`, and the
sympy `Matrix.inv` is Mathlib's nonsingular matrix inverse.
-/

open Real Matrix

/-- Elementary rotation about the body x-axis by roll `phi`
(notebook cell `ea0ce9b7`, `Rx`). -/
noncomputable def Rx (phi : ℝ) : Matrix (Fin 3) (Fin 3) ℝ :=
  !![1, 0, 0;
     0, Real.cos phi, Real.sin phi;
     0, -Real.sin phi, Real.cos phi]

/-- Elementary rotation about the body y-axis by pitch `theta`
(notebook cell `ea0ce9b7`, `Ry`). -/
noncomputable def Ry (theta : ℝ) : Matrix (Fin 3) (Fin 3) ℝ :=
  !![Real.cos theta, 0, -Real.sin theta;
     0, 1, 0;
     Real.sin theta, 0, Real.cos theta]

/-- Elementary rotation about the body z-axis by yaw `psi`
(notebook cell `ea0ce9b7`, `Rz`). -/
noncomputable def Rz (psi : ℝ) : Matrix (Fin 3) (Fin 3) ℝ :=
  !![Real.cos psi, Real.sin psi, 0;
     -Real.sin psi, Real.cos psi, 0;
     0, 0, 1]

/-- Direction-cosine matrix mapping NED-frame vectors into the body frame:
`C_bn = Rx @ Ry @ Rz` (notebook cell `ea0ce9b7`). -/
noncomputable def C_bn (phi theta psi : ℝ) : Matrix (Fin 3) (Fin 3) ℝ :=
  Rx phi * Ry theta * Rz psi

/-- The 3-vector cross product, as sympy's `Matrix.cross` computes it
(used as `omega_b.cross(vel_b)` in cell `ea0ce9b7`). -/
def cross3 (a b : Fin 3 → ℝ) : Fin 3 → ℝ :=
  ![a 1 * b 2 - a 2 * b 1,
    a 2 * b 0 - a 0 * b 2,
    a 0 * b 1 - a 1 * b 0]

/-- Translational state derivative
`acc_cm = 1/m * F_a + C_bn @ g_n - omega_b.cross(vel_b)`
(notebook cell `ea0ce9b7`), with `vel_b = (u,v,w)`, `omega_b = (p,q,r)`,
`F_a = (F_x,F_y,F_z)`, `g_n = (0,0,G)`. -/
noncomputable def acc_cm (u v w p q r phi theta psi Fx Fy Fz m G : ℝ) :
    Fin 3 → ℝ :=
  (1 / m) • ![Fx, Fy, Fz]
    + (C_bn phi theta psi).mulVec ![0, 0, G]
    - cross3 ![p, q, r] ![u, v, w]

/-- Inertia tensor of the xz-symmetric aircraft as the notebook forms it
(cell `1dd6706c`, `J_b`): zero xy and yz products, `J_xz` off-diagonal. -/
def J_b (Jx Jy Jz Jxz : ℝ) : Matrix (Fin 3) (Fin 3) ℝ :=
  !![Jx, 0, Jxz;
     0, Jy, 0;
     Jxz, 0, Jz]

/-- Rotational state derivative
`ang_acc_cm = J_b.inv() @ (M_AT - omega_b.cross(J_b @ omega_b))`
(notebook cell `1dd6706c`), with `M_AT = (L,M,N)`. -/
noncomputable def ang_acc_cm (Jx Jy Jz Jxz p q r L M N : ℝ) : Fin 3 → ℝ :=
  (J_b Jx Jy Jz Jxz)⁻¹.mulVec
    (![L, M, N] - cross3 ![p, q, r] ((J_b Jx Jy Jz Jxz).mulVec ![p, q, r]))

/-- The spec's §4.3 closed-form rotational derivative, transcribed from the
spec's words for the refinement comparison of claim C2 (the notebook's final
markdown cell states the same three formulas). -/
noncomputable def ang_acc_spec (Jx Jy Jz Jxz p q r L M N : ℝ) : Fin 3 → ℝ :=
  ![(Jxz * (Jx - Jy + Jz) * p * q - (Jz * (Jz - Jy) + Jxz ^ 2) * q * r
      + Jz * L + Jxz * N) / (Jx * Jz - Jxz ^ 2),
    ((Jz - Jx) * r * p - Jxz * (p ^ 2 - r ^ 2) + M) / Jy,
    (-(Jxz * (Jx - Jy + Jz)) * q * r + (Jx * (Jx - Jy) + Jxz ^ 2) * p * q
      + Jxz * L + Jx * N) / (Jx * Jz - Jxz ^ 2)]

/-- The canonical Z-Y-X (yaw-pitch-roll) direction-cosine matrix written out
entrywise, following the spec's §4.1 words (and the notebook's markdown cell
`102d883e`), for the comparison of claim C5. -/
noncomputable def dcm_ZYX (phi theta psi : ℝ) : Matrix (Fin 3) (Fin 3) ℝ :=
  !![Real.cos theta * Real.cos psi,
     Real.cos theta * Real.sin psi,
     -Real.sin theta;
     -(Real.cos phi * Real.sin psi) + Real.sin phi * Real.sin theta * Real.cos psi,
     Real.cos phi * Real.cos psi + Real.sin phi * Real.sin theta * Real.sin psi,
     Real.sin phi * Real.cos theta;
     Real.sin phi * Real.sin psi + Real.cos phi * Real.sin theta * Real.cos psi,
     -(Real.sin phi * Real.cos psi) + Real.cos phi * Real.sin theta * Real.sin psi,
     Real.cos phi * Real.cos theta]

/-- Expansion of the direction-cosine product into the canonical Z-Y-X
entrywise matrix. -/
theorem C_bn_eq_dcm_ZYX (phi theta psi : ℝ) :
    C_bn phi theta psi = dcm_ZYX phi theta psi := by
  ext i j
  fin_cases i <;> fin_cases j <;>
    simp [C_bn, Rx, Ry, Rz, dcm_ZYX, Matrix.mul_apply, Fin.sum_univ_three] <;>
    ring

/-- Applying the direction-cosine matrix to the NED gravity vector `(0,0,G)`
yields the closed-form three-element projection (the notebook's
`C_bn @ g_n`, printed in cell `102d883e`). -/
theorem C_bn_mulVec_grav (phi theta psi G : ℝ) :
    (C_bn phi theta psi).mulVec ![0, 0, G] =
      ![-(G * Real.sin theta),
        G * Real.sin phi * Real.cos theta,
        G * Real.cos phi * Real.cos theta] := by
  rw [C_bn_eq_dcm_ZYX]
  funext i
  fin_cases i <;>
    simp [dcm_ZYX, Matrix.mulVec, Matrix.dotProduct, Fin.sum_univ_three] <;>
    ring

/-- Componentwise closed form of the translational derivative, exactly as the
notebook prints `acc_cm` in cell `ea0ce9b7`. -/
theorem acc_cm_components (u v w p q r phi theta psi Fx Fy Fz m G : ℝ) :
    acc_cm u v w p q r phi theta psi Fx Fy Fz m G =
      ![Fx / m - G * Real.sin theta - q * w + r * v,
        Fy / m + G * Real.sin phi * Real.cos theta + p * w - r * u,
        Fz / m + G * Real.cos phi * Real.cos theta - p * v + q * u] := by
  rw [acc_cm, C_bn_mulVec_grav]
  funext i
  fin_cases i <;>
    simp [cross3, Pi.add_apply, Pi.sub_apply, Pi.smul_apply, smul_eq_mul] <;>
    ring

/-- Determinant of the notebook's inertia tensor. -/
theorem J_b_det (Jx Jy Jz Jxz : ℝ) :
    (J_b Jx Jy Jz Jxz).det = Jy * (Jx * Jz - Jxz ^ 2) := by
  simp [J_b, Matrix.det_fin_three]
  ring

/-- Componentwise closed form of the rotational derivative exactly as sympy
prints `ang_acc_cm` in cell `1dd6706c` (after expansion): note the signs of
the terms odd in `J_xz` relative to the spec's §4.3 closed form. -/
theorem ang_acc_cm_components (Jx Jy Jz Jxz p q r L M N : ℝ)
    (hy : Jy ≠ 0) (hd : Jx * Jz - Jxz ^ 2 ≠ 0) :
    ang_acc_cm Jx Jy Jz Jxz p q r L M N =
      ![(-(Jxz * (Jx - Jy + Jz)) * p * q - (Jz * (Jz - Jy) + Jxz ^ 2) * q * r
          + Jz * L - Jxz * N) / (Jx * Jz - Jxz ^ 2),
        ((Jz - Jx) * r * p + Jxz * (p ^ 2 - r ^ 2) + M) / Jy,
        (Jxz * (Jx - Jy + Jz) * q * r + (Jx * (Jx - Jy) + Jxz ^ 2) * p * q
          - Jxz * L + Jx * N) / (Jx * Jz - Jxz ^ 2)] := by
  have hu : IsUnit (J_b Jx Jy Jz Jxz).det := by
    rw [J_b_det]
    exact (mul_ne_zero hy hd).isUnit
  have key : (J_b Jx Jy Jz Jxz).mulVec
      ![(-(Jxz * (Jx - Jy + Jz)) * p * q - (Jz * (Jz - Jy) + Jxz ^ 2) * q * r
          + Jz * L - Jxz * N) / (Jx * Jz - Jxz ^ 2),
        ((Jz - Jx) * r * p + Jxz * (p ^ 2 - r ^ 2) + M) / Jy,
        (Jxz * (Jx - Jy + Jz) * q * r + (Jx * (Jx - Jy) + Jxz ^ 2) * p * q
          - Jxz * L + Jx * N) / (Jx * Jz - Jxz ^ 2)] =
      ![L, M, N] - cross3 ![p, q, r] ((J_b Jx Jy Jz Jxz).mulVec ![p, q, r]) := by
    funext i
    fin_cases i <;>
      (simp [J_b, cross3, Matrix.mulVec, Matrix.dotProduct, Fin.sum_univ_three,
        Pi.sub_apply]
       field_simp
       ring)
  rw [ang_acc_cm, ← key, Matrix.mulVec_mulVec, Matrix.nonsing_inv_mul _ hu,
    Matrix.one_mulVec]

/-- C1: for every finite velocity, angular velocity, force, mass `m ≠ 0`,
gravity `G`, and Euler angles, the Translational Derivative equals
`F/m + C_bn·(0,0,G) − ω × v` componentwise, with
`u' = F_x/m − G sin θ − q w + r v`,
`v' = F_y/m + G sin φ cos θ + p w − r u`,
`w' = F_z/m + G cos φ cos θ − p v + q u`. -/
theorem C1_translational_closed_form (u v w p q r phi theta psi Fx Fy Fz m G : ℝ)
    (_hm : m ≠ 0) :
    acc_cm u v w p q r phi theta psi Fx Fy Fz m G =
        (1 / m) • ![Fx, Fy, Fz] + (C_bn phi theta psi).mulVec ![0, 0, G]
          - cross3 ![p, q, r] ![u, v, w]
    ∧ acc_cm u v w p q r phi theta psi Fx Fy Fz m G =
        ![Fx / m - G * Real.sin theta - q * w + r * v,
          Fy / m + G * Real.sin phi * Real.cos theta + p * w - r * u,
          Fz / m + G * Real.cos phi * Real.cos theta - p * v + q * u] :=
  ⟨rfl, acc_cm_components u v w p q r phi theta psi Fx Fy Fz m G⟩

/-- Witness for C1 at a concrete valid input (`m = 2 ≠ 0`). -/
theorem C1_translational_closed_form_witness :
    (2 : ℝ) ≠ 0
    ∧ (acc_cm 1 2 3 4 5 6 0 0 0 7 8 9 2 10 =
        ((1 : ℝ) / 2) • ![(7 : ℝ), 8, 9] + (C_bn 0 0 0).mulVec ![0, 0, 10]
          - cross3 ![4, 5, 6] ![1, 2, 3]
      ∧ acc_cm 1 2 3 4 5 6 0 0 0 7 8 9 2 10 =
        ![7 / 2 - 10 * Real.sin 0 - 5 * 3 + 6 * 2,
          8 / 2 + 10 * Real.sin 0 * Real.cos 0 + 4 * 3 - 6 * 1,
          9 / 2 + 10 * Real.cos 0 * Real.cos 0 - 4 * 2 + 5 * 1]) :=
  ⟨by norm_num, C1_translational_closed_form 1 2 3 4 5 6 0 0 0 7 8 9 2 10 (by norm_num)⟩

/-- C3: the full-matrix gravity transform `C_bn·(0,0,G)` equals the
closed-form projection `(−G sin θ, G sin φ cos θ, G cos φ cos θ)`. -/
theorem C3_gravity_projection_equiv (phi theta psi G : ℝ) :
    (C_bn phi theta psi).mulVec ![0, 0, G] =
      ![-(G * Real.sin theta),
        G * Real.sin phi * Real.cos theta,
        G * Real.cos phi * Real.cos theta] :=
  C_bn_mulVec_grav phi theta psi G

/-- C5: the Attitude Transform is the product `Rx(φ) · Ry(θ) · Rz(ψ)` of the
three elementary aerospace rotations in that order, and that product is the
canonical Z-Y-X (yaw-pitch-roll) direction-cosine matrix written entrywise. -/
theorem C5_attitude_transform_ZYX (phi theta psi : ℝ) :
    C_bn phi theta psi = Rx phi * Ry theta * Rz psi
    ∧ C_bn phi theta psi = dcm_ZYX phi theta psi :=
  ⟨rfl, C_bn_eq_dcm_ZYX phi theta psi⟩

/-- C6: with `J_xz = 0` and nonzero principal moments, the Rotational
Derivative reduces to the decoupled classical Euler equations. -/
theorem C6_decoupled_euler_equations (Jx Jy Jz p q r L M N : ℝ)
    (hx : Jx ≠ 0) (hy : Jy ≠ 0) (hz : Jz ≠ 0) :
    ang_acc_cm Jx Jy Jz 0 p q r L M N =
      ![((Jy - Jz) * q * r + L) / Jx,
        ((Jz - Jx) * r * p + M) / Jy,
        ((Jx - Jy) * p * q + N) / Jz] := by
  rw [ang_acc_cm_components Jx Jy Jz 0 p q r L M N hy
    (by simpa using mul_ne_zero hx hz)]
  funext i
  fin_cases i <;>
    (simp only [Matrix.cons_val_zero, Matrix.cons_val_one, Matrix.head_cons,
      Matrix.cons_val_two, Matrix.vecTail, Matrix.vecHead, Function.comp]
     field_simp) <;>
    ring

/-- Witness for C6 at a concrete valid input (`J_x = 2, J_y = 3, J_z = 4`). -/
theorem C6_decoupled_euler_equations_witness :
    ((2 : ℝ) ≠ 0 ∧ (3 : ℝ) ≠ 0 ∧ (4 : ℝ) ≠ 0)
    ∧ ang_acc_cm 2 3 4 0 1 1 1 5 6 7 =
      ![((3 - 4) * 1 * 1 + 5) / 2,
        ((4 - 2) * 1 * 1 + 6) / 3,
        ((2 - 3) * 1 * 1 + 7) / 4] :=
  ⟨⟨by norm_num, by norm_num, by norm_num⟩,
    C6_decoupled_euler_equations 2 3 4 1 1 1 5 6 7
      (by norm_num) (by norm_num) (by norm_num)⟩

/-- C7: with zero applied force and zero gravity the Translational Derivative
reduces to the pure rotational-coupling terms `−ω × v`. -/
theorem C7_pure_rotational_coupling (u v w p q r phi theta psi m : ℝ) :
    acc_cm u v w p q r phi theta psi 0 0 0 m 0 =
      ![-(q * w) + r * v, p * w - r * u, -(p * v) + q * u] := by
  rw [acc_cm_components]
  funext i
  fin_cases i <;>
    simp only [Matrix.cons_val_zero, Matrix.cons_val_one, Matrix.head_cons,
      Matrix.cons_val_two, Matrix.vecTail, Matrix.vecHead, Function.comp,
      zero_div, zero_mul, mul_zero, zero_add, zero_sub, sub_zero]

/-- C9: the gravity-in-body-frame vector, and therefore the whole
Translational Derivative, does not depend on the yaw angle `ψ`. -/
theorem C9_yaw_independence (u v w p q r phi theta psi1 psi2 Fx Fy Fz m G : ℝ) :
    (C_bn phi theta psi1).mulVec ![0, 0, G] =
      (C_bn phi theta psi2).mulVec ![0, 0, G]
    ∧ acc_cm u v w p q r phi theta psi1 Fx Fy Fz m G =
      acc_cm u v w p q r phi theta psi2 Fx Fy Fz m G := by
  constructor
  · rw [C_bn_mulVec_grav, C_bn_mulVec_grav]
  · rw [acc_cm_components, acc_cm_components]

/-- C10: the gravity-in-body-frame vector `C_bn·(0,0,G)` has squared
Euclidean norm exactly `G ^ 2`. -/
theorem C10_gravity_norm_preserved (phi theta psi G : ℝ) :
    ((C_bn phi theta psi).mulVec ![0, 0, G]) 0 ^ 2
      + ((C_bn phi theta psi).mulVec ![0, 0, G]) 1 ^ 2
      + ((C_bn phi theta psi).mulVec ![0, 0, G]) 2 ^ 2 = G ^ 2 := by
  rw [C_bn_mulVec_grav]
  simp only [Matrix.cons_val_zero, Matrix.cons_val_one, Matrix.head_cons,
    Matrix.cons_val_two, Matrix.vecTail, Matrix.vecHead, Function.comp_apply,
    Fin.succ_zero_eq_one]
  linear_combination (G ^ 2 * Real.cos theta ^ 2) * Real.sin_sq_add_cos_sq phi
    + G ^ 2 * Real.sin_sq_add_cos_sq theta

/-- Negating the product of inertia in the notebook's tensor recovers the
spec's §4.3 closed form: the notebook's `J_b` places `+J_xz` off-diagonal
where its cited reference's convention (and the notebook's own final
markdown cell) corresponds to `−J_xz`. -/
theorem ang_acc_cm_neg_Jxz_eq_spec (Jx Jy Jz Jxz p q r L M N : ℝ)
    (hy : Jy ≠ 0) (hd : Jx * Jz - Jxz ^ 2 ≠ 0) :
    ang_acc_cm Jx Jy Jz (-Jxz) p q r L M N =
      ang_acc_spec Jx Jy Jz Jxz p q r L M N := by
  rw [ang_acc_cm_components Jx Jy Jz (-Jxz) p q r L M N hy
    (by rw [neg_sq]; exact hd)]
  funext i
  fin_cases i <;>
    simp only [ang_acc_spec, Matrix.cons_val_zero, Matrix.cons_val_one,
      Matrix.head_cons, Matrix.cons_val_two, Matrix.vecTail, Matrix.vecHead,
      Function.comp_apply, Fin.succ_zero_eq_one, neg_sq, neg_neg, neg_mul,
      mul_neg, sub_neg_eq_add] <;>
    ring_nf

/-- C2 (code bug): at `J_x = 2, J_y = 1, J_z = 2, J_xz = 1`, `ω = 0`,
`(L,M,N) = (0,0,1)`, the notebook's matrix path `J⁻¹(M_vec − ω × (Jω))`
yields `ṗ = −1/3`, while the spec's §4.3 closed form yields `ṗ = +1/3`:
the two paths do not agree. -/
theorem C2_matrix_path_disagrees_with_spec :
    (ang_acc_cm 2 1 2 1 0 0 0 0 0 1) 0 = -(1 / 3)
    ∧ (ang_acc_spec 2 1 2 1 0 0 0 0 0 1) 0 = 1 / 3
    ∧ (ang_acc_cm 2 1 2 1 0 0 0 0 0 1) 0 ≠
        (ang_acc_spec 2 1 2 1 0 0 0 0 0 1) 0 := by
  have h1 : (ang_acc_cm 2 1 2 1 0 0 0 0 0 1) 0 = -(1 / 3) := by
    rw [ang_acc_cm_components 2 1 2 1 0 0 0 0 0 1 (by norm_num) (by norm_num)]
    norm_num
  have h2 : (ang_acc_spec 2 1 2 1 0 0 0 0 0 1) 0 = 1 / 3 := by
    norm_num [ang_acc_spec]
  exact ⟨h1, h2, by rw [h1, h2]; norm_num⟩

/-- C8 counterexample: in the spec's concrete scenario
(`m = 1000`, `G = 9.81`, level attitude, `u = 100`, `q = 0.1`, zero force)
the code's third component is `19.81`, not the claimed `10`. -/
theorem C8_scenario_counterexample :
    (acc_cm 100 0 0 0 0.1 0 0 0 0 0 0 0 1000 9.81) 2 = 19.81
    ∧ (19.81 : ℝ) ≠ 10 := by
  constructor
  · rw [acc_cm_components]
    norm_num
  · norm_num

/-- C8 amended: the scenario yields `u̇ = 0`, `v̇ = 0`, and
`ẇ = G + q·u = 9.81 + 10 = 19.81`, as the spec's own parenthetical
expansion computes. -/
theorem C8_scenario_value :
    acc_cm 100 0 0 0 0.1 0 0 0 0 0 0 0 1000 9.81 = ![0, 0, 19.81] := by
  rw [acc_cm_components]
  funext i
  fin_cases i <;> norm_num

/-- Modelled from the spec: reason codes of the single `DomainError` kind
(spec §7); the notebook source contains no validation code at all. -/
inductive DomainErrorReason
  | NonPositiveMass
  | NonPositiveLateralInertia
  | DegenerateInertiaTensor
deriving DecidableEq

/-- Modelled from the spec: the validated Translational Derivative of §4.2
and §7, absent from the notebook source — it checks `m ≤ 0` before any
division and otherwise returns the notebook's `acc_cm`. -/
noncomputable def transDeriv (u v w p q r phi theta psi Fx Fy Fz m G : ℝ) :
    Except DomainErrorReason (Fin 3 → ℝ) :=
  if m ≤ 0 then Except.error DomainErrorReason.NonPositiveMass
  else Except.ok (acc_cm u v w p q r phi theta psi Fx Fy Fz m G)

/-- Modelled from the spec: the validated Rotational Derivative of §4.3 and
§7, absent from the notebook source — it checks `J_y ≤ 0` and then
`Δ = J_x·J_z − J_xz² ≤ 0` before any division, in the order the spec lists
them, and otherwise returns the notebook's `ang_acc_cm`. -/
noncomputable def rotDeriv (Jx Jy Jz Jxz p q r L M N : ℝ) :
    Except DomainErrorReason (Fin 3 → ℝ) :=
  if Jy ≤ 0 then Except.error DomainErrorReason.NonPositiveLateralInertia
  else if Jx * Jz - Jxz ^ 2 ≤ 0 then
    Except.error DomainErrorReason.DegenerateInertiaTensor
  else Except.ok (ang_acc_cm Jx Jy Jz Jxz p q r L M N)

/-- C4 counterexample: at `J_x = 1, J_y = −1, J_z = 1, J_xz = 2` both
`J_y ≤ 0` and `Δ = −3 ≤ 0` hold; the `J_y` check fires first, so the result
is `NonPositiveLateralInertia` even though `Δ ≤ 0` — refuting the claimed
"fails with `DegenerateInertiaTensor` if and only if `Δ ≤ 0`". -/
theorem C4_degenerate_reason_not_iff :
    ¬ (rotDeriv 1 (-1) 1 2 0 0 0 0 0 0 =
          Except.error DomainErrorReason.DegenerateInertiaTensor
        ↔ (1 : ℝ) * 1 - 2 ^ 2 ≤ 0) := by
  have hval : rotDeriv 1 (-1) 1 2 0 0 0 0 0 0 =
      Except.error DomainErrorReason.NonPositiveLateralInertia := by
    rw [rotDeriv, if_pos (by norm_num : (-1 : ℝ) ≤ 0)]
  intro h
  have h2 := h.mpr (by norm_num)
  rw [hval] at h2
  simp at h2

/-- C4 amended: the Translational Derivative fails with
`NonPositiveMass` iff `m ≤ 0` and returns the notebook's value iff `m > 0`;
the Rotational Derivative fails with `NonPositiveLateralInertia` iff
`J_y ≤ 0`, fails with `DegenerateInertiaTensor` iff `J_y > 0` and `Δ ≤ 0`
(when both conditions hold the `J_y` check, which runs first, wins), and
returns the notebook's value iff `J_y > 0` and `Δ > 0`; there are no other
failure modes. -/
theorem C4_error_contract (u v w p q r phi theta psi Fx Fy Fz m G
    Jx Jy Jz Jxz L M N : ℝ) :
    (transDeriv u v w p q r phi theta psi Fx Fy Fz m G =
        Except.error DomainErrorReason.NonPositiveMass ↔ m ≤ 0)
    ∧ (transDeriv u v w p q r phi theta psi Fx Fy Fz m G =
        Except.ok (acc_cm u v w p q r phi theta psi Fx Fy Fz m G) ↔ 0 < m)
    ∧ (rotDeriv Jx Jy Jz Jxz p q r L M N =
        Except.error DomainErrorReason.NonPositiveLateralInertia ↔ Jy ≤ 0)
    ∧ (rotDeriv Jx Jy Jz Jxz p q r L M N =
        Except.error DomainErrorReason.DegenerateInertiaTensor ↔
        (0 < Jy ∧ Jx * Jz - Jxz ^ 2 ≤ 0))
    ∧ (rotDeriv Jx Jy Jz Jxz p q r L M N =
        Except.ok (ang_acc_cm Jx Jy Jz Jxz p q r L M N) ↔
        (0 < Jy ∧ 0 < Jx * Jz - Jxz ^ 2)) := by
  refine ⟨?_, ?_, ?_, ?_, ?_⟩
  · rw [transDeriv]
    split_ifs with h1 <;> simp_all [not_le, not_lt, le_of_lt]
  · rw [transDeriv]
    split_ifs with h1 <;> simp_all [not_le, not_lt]
  · rw [rotDeriv]
    split_ifs with h1 h2 <;> simp_all [not_le, not_lt]
  · rw [rotDeriv]
    split_ifs with h1 h2 <;> simp_all [not_le, not_lt]
  · rw [rotDeriv]
    split_ifs with h1 h2 <;> simp_all [not_le, not_lt]
